import Mathlib

/-!
Verification development for the novel-generation backend
(src/backend/src: models.py, novels.py, services/novelist.py,
services/gemini_retry.py, services/gemini_exceptions.py, services/error_handler.py).

The Python code is shallowly embedded: the SQLAlchemy session is modelled as a
pure record `DB` threaded through the operations (a commit replaces the stored
state, a rollback keeps the previously committed state), the external Gemini
calls are oracle parameters, and Python integers are `Nat`.
-/

namespace NovelBackend

/-- models.py: `NovelStatus` enum, shared by novels and chapters. -/
inductive NovelStatus
  | PENDING
  | GENERATING
  | COMPLETED
  | FAILED
deriving DecidableEq, Repr

/-- gemini_exceptions.py: the concrete `GeminiAPIError` subclasses, plus a
constructor for exceptions outside the Gemini taxonomy.  `RateLimitError`
carries its optional wait hint. -/
inductive GErr
  | SafetyFilterError
  | EmptyResponseError
  | InvalidJSONError
  | MaxTokensError
  | RecitationError
  | NetworkError
  | TimeoutError
  | RateLimitError (retry_after : Option Nat)
  | UnexpectedFinishReasonError
  | APIAuthenticationError
  | OtherGeminiAPIError
  | OtherException
deriving DecidableEq, Repr

/-- models.py `Novel` row, restricted to the columns the verified operations
read or write. -/
structure NovelRec where
  id : Nat
  user_id : String
  status : NovelStatus
  updated_at : Nat
deriving DecidableEq, Repr

/-- models.py `Chapter` row, restricted to the columns the verified operations
read or write. -/
structure ChapterRec where
  id : Nat
  chapter_number : Nat
  content : String
  novel_id : Nat
  status : NovelStatus
  plot : String
  updated_at : Nat
deriving DecidableEq, Repr

/-- The committed database state. -/
structure DB where
  novels : List NovelRec
  chapters : List ChapterRec
deriving DecidableEq, Repr

/-- `session.get(Novel, novel_id)`. -/
def DB.findNovel (db : DB) (novel_id : Nat) : Option NovelRec :=
  db.novels.find? (fun n => n.id == novel_id)

/-- `session.get(Chapter, chapter_id)`. -/
def DB.findChapter (db : DB) (chapter_id : Nat) : Option ChapterRec :=
  db.chapters.find? (fun c => c.id == chapter_id)

/-- Mutate the novel row with the given id (attribute assignment + commit). -/
def DB.updateNovel (db : DB) (novel_id : Nat) (f : NovelRec → NovelRec) : DB :=
  { db with novels := db.novels.map (fun n => if n.id == novel_id then f n else n) }

/-- Mutate the chapter row with the given id (attribute assignment + commit). -/
def DB.updateChapter (db : DB) (chapter_id : Nat) (f : ChapterRec → ChapterRec) : DB :=
  { db with chapters := db.chapters.map (fun c => if c.id == chapter_id then f c else c) }

/-- A fresh primary key for a row inserted by `db.session.add` (the source uses
random uuid4 hex strings; only freshness matters here). -/
def DB.freshChapterId (db : DB) : Nat :=
  (db.chapters.map (fun c => c.id)).foldr Nat.max 0 + 1

/-- novels.py line 26: `list_finder(tar_list, compare_func)` returns the index
of the first element satisfying the predicate; Python returns -1 when there is
none, modelled as `none`. -/
def list_finder {α : Type} (tar_list : List α) (compare_func : α → Bool) : Option Nat :=
  tar_list.findIdx? compare_func

/-- novelist.py: the mutable attributes set up by `Novelist.__init__`.
`other_settings` is a dict in the source; only its "style" and "genre" keys are
ever read, so it is modelled by those two fields (absent key reads as ""). -/
structure Novelist where
  plot : String
  chapter_plots : List String
  previous_chapter_content : String
  next_chapter_num : Nat
  chapter_count : Nat
  total_text_length : Nat
  target_text_length : Nat
  style : String
  genre : String
deriving DecidableEq, Repr

/-- `Novelist.__init__`: the initial attribute values. -/
def Novelist.init : Novelist :=
  { plot := "", chapter_plots := [], previous_chapter_content := "",
    next_chapter_num := 1, chapter_count := 0, total_text_length := 0,
    target_text_length := 0, style := "", genre := "" }

/-- Fuel-driven floor of the base-2 logarithm, used to locate the binade of a
float quotient; `fuel` at least the number itself suffices. -/
def floorLog2Aux : Nat → Nat → Nat
  | 0, _ => 0
  | fuel + 1, n => if n < 2 then 0 else floorLog2Aux fuel (n / 2) + 1

/-- Largest e with 2 to the e at most n, for n at least 1 (0 at 0). -/
def floorLog2 (n : Nat) : Nat :=
  floorLog2Aux n n

/-- Round the rational num / den (den positive) to the nearest integer, ties
to even: the IEEE-754 default rounding applied to a scaled significand. -/
def roundHalfEven (num den : Nat) : Nat :=
  if 2 * (num % den) < den then num / den
  else if den < 2 * (num % den) then num / den + 1
  else if num / den % 2 == 0 then num / den else num / den + 1

/-- Python `int(x / 2000)` for the int x of the division branch below
(x at least 4000, so the quotient is at least 2 and normal): `x / 2000` is
IEEE-754 binary64 true division, which CPython computes correctly rounded:
the exact rational x/2000 is rounded to the nearest multiple of the unit in
the last place of its binade, 2 to the (e - 52) for e the floor of log2 of
the quotient, ties to even; `int` then truncates the (nonnegative) rounded
value toward zero.  For e at most 52 the ulp is a reciprocal power of two
and truncation is division by it; above 52 the ulp is an integer factor.
The model covers the finite range of the double format; the overflow bound
near 2000 times 2 to the 1024, where Python would raise OverflowError, is
far beyond every length analysed here. -/
def int_div_2000_float (x : Nat) : Nat :=
  let e := floorLog2 (x / 2000)
  if e ≤ 52 then
    roundHalfEven (x * 2 ^ (52 - e)) 2000 / 2 ^ (52 - e)
  else
    roundHalfEven x (2000 * 2 ^ (e - 52)) * 2 ^ (e - 52)

/-- novelist.py lines 54-56: `calc_chapter_count`.
`int(text_length / 2000)` is float true division followed by truncation
toward zero, embedded by `int_div_2000_float`; it agrees with exact floor
division only while the quotient stays below 2 to the 43 (proved below), and
exceeds it for instance at 17592186044417999. -/
def calc_chapter_count (text_length : Nat) : Nat :=
  if text_length < 4000 then 1 else int_div_2000_float text_length

/-- novelist.py line 234: `is_completed`. -/
def Novelist.is_completed (st : Novelist) : Bool :=
  st.next_chapter_num == st.chapter_count + 1

/-- The external `NovelGenerator.generate_chapter(plot, style, previous_chapter,
chapter_num)` call (already wrapped in its retry decorator): an oracle that
either returns chapter text or raises a `GeminiAPIError`. -/
abbrev ChapterGen := String → String → Option String → Nat → Except GErr String

/-- novelist.py lines 147-179: `write_next_chapter`.  On success the three
mutable attributes advance; if the generator raises, the assignments never run
and the state is unchanged (the exception propagates). -/
def write_next_chapter (gen : ChapterGen) (st : Novelist) : Except GErr (String × Novelist) :=
  match gen st.plot st.style
      (if st.next_chapter_num == 1 then none else some st.previous_chapter_content)
      st.next_chapter_num with
  | Except.error e => Except.error e
  | Except.ok content =>
      Except.ok (content,
        { st with previous_chapter_content := content,
                  next_chapter_num := st.next_chapter_num + 1,
                  total_text_length := st.total_text_length + content.length })

/-- Errors raised by `Novelist` methods: Python `ValueError` with its message,
or a propagated `GeminiAPIError`. -/
inductive NovelistError
  | valueError (msg : String)
  | apiError (e : GErr)
deriving DecidableEq, Repr

/-- novelist.py lines 181-228: `retry_failed_chapter`.  The method mutates no
attribute of `self`, so the returned state is the input state. -/
def retry_failed_chapter (gen : ChapterGen) (st : Novelist) (chapter_number : Nat)
    (previous_content : Option String) : Except NovelistError (String × Novelist) :=
  if chapter_number < 1 ∨ chapter_number > st.chapter_count then
    Except.error (NovelistError.valueError "Invalid chapter number")
  else
    let prev : Option String :=
      match previous_content with
      | some p => some p
      | none =>
          if chapter_number == 1 then none
          else if st.next_chapter_num > chapter_number then
            some st.previous_chapter_content
          else none
    match gen st.plot st.style prev chapter_number with
    | Except.error e => Except.error (NovelistError.apiError e)
    | Except.ok content => Except.ok (content, st)

/-- The structured payload returned by `NovelGenerator.generate_init`, reduced
to the fields `prepare_novel` and the init endpoint read; each element of
`chapter_plots` stands for the dict value under its "plot" key. -/
structure PlanData where
  plot : String
  chapter_plots : List String
  title : String
  summary : String
deriving DecidableEq, Repr

/-- The external `generate_init(text_length, chapter_count, other_settings)`
call: an oracle returning the plan payload or raising. -/
abbrev InitGen := Nat → Nat → Except GErr PlanData

/-- novelist.py lines 71-100: `prepare_novel`.  The chapter count is computed
from the target length, the plan is requested, and a count mismatch raises a
`ValueError`; the half-assigned state on the raising path is dropped because
every caller discards the `Novelist` when this method raises. -/
def prepare_novel (generate_init : InitGen) (st : Novelist) : Except NovelistError Novelist :=
  let cc := calc_chapter_count st.target_text_length
  match generate_init st.target_text_length cc with
  | Except.error e => Except.error (NovelistError.apiError e)
  | Except.ok generated =>
      if generated.chapter_plots.length ≠ cc then
        Except.error (NovelistError.valueError "chapter count mismatch")
      else
        Except.ok { st with chapter_count := cc, plot := generated.plot,
                            chapter_plots := generated.chapter_plots }

/-- gemini_retry.py lines 31-37: membership in the `RETRIABLE_ERRORS` tuple. -/
def RETRIABLE_ERRORS (e : GErr) : Bool :=
  match e with
  | GErr.NetworkError => true
  | GErr.TimeoutError => true
  | GErr.RateLimitError _ => true
  | GErr.EmptyResponseError => true
  | GErr.UnexpectedFinishReasonError => true
  | _ => false

/-- gemini_retry.py line 218: `RETRIABLE_ERRORS + (InvalidJSONError,)`. -/
def extended_retriable (e : GErr) : Bool :=
  RETRIABLE_ERRORS e || (e == GErr.InvalidJSONError)

/-- The wrapped operation: attempt number to outcome (each loop iteration calls
`func` once; modelling the call by its attempt index keeps every invocation
visible). -/
abbrev RetryOp (α : Type) := Nat → Except GErr α

/-- gemini_retry.py lines 92-158: the body of `wrapper`, from a given attempt
index with a given number of retries still allowed.  A retriable error with
retries remaining sleeps (not modelled: real time) and loops; a retriable error
with none remaining re-raises; every other exception branch re-raises at once. -/
def retry_from {α : Type} (retriable : GErr → Bool) (op : RetryOp α) :
    Nat → Nat → Except GErr α
  | attempt, remaining =>
    match op attempt with
    | Except.ok v => Except.ok v
    | Except.error e =>
        if retriable e then
          match remaining with
          | 0 => Except.error e
          | r + 1 => retry_from retriable op (attempt + 1) r
        else
          Except.error e

/-- gemini_retry.py lines 50-162: `retry_on_error` (the loop runs attempts
`0..max_retries`). -/
def retry_on_error {α : Type} (max_retries : Nat) (retriable : GErr → Bool)
    (op : RetryOp α) : Except GErr α :=
  retry_from retriable op 0 max_retries

/-- gemini_retry.py lines 166-180: the general-purpose preset
(`max_retries=3`, default retriable set).  Delay parameters are real-time only
and do not affect the result. -/
def retry_for_novel_generation {α : Type} (op : RetryOp α) : Except GErr α :=
  retry_on_error 3 RETRIABLE_ERRORS op

/-- gemini_retry.py lines 202-227: the JSON-generation preset (`max_retries=4`,
retriable set extended with `InvalidJSONError`). -/
def retry_for_json_generation {α : Type} (op : RetryOp α) : Except GErr α :=
  retry_on_error 4 extended_retriable op

/-- A raised Python exception that is not part of the Gemini taxonomy. -/
inductive PyExn
  | nameError (missing : String)
deriving DecidableEq, Repr

/-- The names bound at module level in error_handler.py: its imports
(`logging`, `datetime` from datetime, `List`, `Optional`, `db`, `Chapter`,
`Novel`, `NovelStatus`, `GeminiAPIError`) and the assigned `logger`. -/
def error_handler_bound_names : List String :=
  ["logging", "datetime", "List", "Optional", "db", "Chapter", "Novel",
   "NovelStatus", "GeminiAPIError", "logger"]

/-- Evaluation of `datetime.now(timezone.utc)` inside error_handler.py: the
free name `timezone` is looked up in the module namespace and is not bound
there, so the expression raises `NameError` before any clock is read.  The
success branch (reached only if the module bound the name) returns a dummy
tick, as the concrete time never influences control flow. -/
def datetime_now_timezone_utc : Except PyExn Nat :=
  if error_handler_bound_names.contains "timezone" then Except.ok 1
  else Except.error (PyExn.nameError "timezone")

/-- error_handler.py lines 19-96: `mark_novel_as_failed`.  The source sets
`novel.status` and then evaluates `datetime.now(timezone.utc)` for
`novel.updated_at`; when that raises, the `except` clause rolls the session
back (discarding the status assignment) and returns False, so the committed
state is returned unchanged.  The timestamp is matched on once up front: the
first of the (at most two) evaluations already decides between the raising
path and the all-assignments path, and under rollback no partial assignment
survives.  The message and type arguments feed only the log. -/
def mark_novel_as_failed (db : DB) (novel_id : Nat) (_error_message : String)
    (_error_type : Option String) (failed_chapter_id : Option Nat) : DB × Bool :=
  match db.findNovel novel_id with
  | none => (db, false)
  | some _ =>
    match datetime_now_timezone_utc with
    | Except.error _ => (db, false)
    | Except.ok ts =>
        let db1 := db.updateNovel novel_id
          (fun n => { n with status := NovelStatus.FAILED, updated_at := ts })
        let db2 :=
          match failed_chapter_id with
          | some cid =>
              match db.findChapter cid with
              | some _ => db1.updateChapter cid
                  (fun c => { c with status := NovelStatus.FAILED, updated_at := ts })
              | none => db1
          | none => db1
        (db2, true)

/-- error_handler.py lines 99-155: `mark_chapter_as_failed`, with the same
raise-and-rollback behaviour as `mark_novel_as_failed`. -/
def mark_chapter_as_failed (db : DB) (chapter_id : Nat) (_error_message : String)
    (_error_type : Option String) : DB × Bool :=
  match db.findChapter chapter_id with
  | none => (db, false)
  | some _ =>
    match datetime_now_timezone_utc with
    | Except.error _ => (db, false)
    | Except.ok ts =>
        (db.updateChapter chapter_id
          (fun c => { c with status := NovelStatus.FAILED, updated_at := ts }), true)

/-- error_handler.py lines 310-352: `handle_chapter_generation_failure` marks
the chapter and then the novel as failed, ignoring both boolean results. -/
def handle_chapter_generation_failure (db : DB) (novel_id : Nat) (chapter_id : Nat)
    (error_message : String) (error_type : String) : DB :=
  let r1 := mark_chapter_as_failed db chapter_id error_message (some error_type)
  let r2 := mark_novel_as_failed r1.1 novel_id
    ("Chapter generation failed: " ++ error_message) (some error_type) (some chapter_id)
  r2.1

/-- novels.py lines 74-118: one iteration of the chapter loop of
`novelist_bg_task_runner`, with explicit fuel (the Python `while` loop; fuel
exhaustion, `none`, corresponds to non-termination, which no theorem relies
on).  `snapshot` holds the ids of the rows read by the initial
`query(Chapter).filter_by(novel_id=...)`: the loop searches only those ORM
objects, while their current attributes live in `db`. -/
def runner_loop (gen : ChapterGen) (novel_id : Nat) (snapshot : List Nat) :
    Nat → Novelist → DB → Option DB
  | 0, _, _ => none
  | fuel + 1, st, db =>
    if st.is_completed then
      -- lines 120-122: all chapters done, novel COMPLETED, commit.
      some (db.updateNovel novel_id (fun n => { n with status := NovelStatus.COMPLETED }))
    else
      let chpind := list_finder snapshot (fun cid =>
        match db.findChapter cid with
        | some c => c.chapter_number == st.next_chapter_num
        | none => false)
      match chpind.bind (fun i => snapshot.get? i) with
      | some cid =>
          -- lines 93-98: chapter found; status GENERATING, commit.
          let db1 := db.updateChapter cid (fun c => { c with status := NovelStatus.GENERATING })
          match write_next_chapter gen st with
          | Except.error e =>
              -- lines 111-118: generation failed; mark and stop.
              some (handle_chapter_generation_failure db1 novel_id cid "" (reprStr e))
          | Except.ok (content, st1) =>
              -- lines 103-109: content persisted, chapter COMPLETED, commit.
              runner_loop gen novel_id snapshot fuel st1
                (db1.updateChapter cid
                  (fun c => { c with content := content, status := NovelStatus.COMPLETED }))
      | none =>
          -- lines 79-92: chapter row missing; create it (with the sources
          -- off-by-one chapter_number) and continue.  The Python list index
          -- `chapter_plots[next_chapter_num - 1]` raises IndexError when out
          -- of range; that exception reaches the outer handler, whose
          -- `mark_novel_as_failed` rolls back, leaving the committed state.
          match st.chapter_plots.get? (st.next_chapter_num - 1) with
          | none =>
              some (mark_novel_as_failed db novel_id "Background task failed" none none).1
          | some plt =>
              let cid := db.freshChapterId
              let db1 := { db with chapters := db.chapters ++
                [{ id := cid, chapter_number := st.next_chapter_num - 1,
                   content := "NO CONTENT", novel_id := novel_id,
                   status := NovelStatus.GENERATING, plot := plt, updated_at := 0 }] }
              match write_next_chapter gen st with
              | Except.error e =>
                  some (handle_chapter_generation_failure db1 novel_id cid "" (reprStr e))
              | Except.ok (content, st1) =>
                  runner_loop gen novel_id snapshot fuel st1
                    (db1.updateChapter cid
                      (fun c => { c with content := content, status := NovelStatus.COMPLETED }))

/-- novels.py lines 35-139: `novelist_bg_task_runner`.  Reads the chapter rows
of the novel, marks the novel GENERATING, and runs the chapter loop; if the
novel row is missing the task returns without touching anything. -/
def novelist_bg_task_runner (gen : ChapterGen) (fuel : Nat) (novelist : Novelist)
    (db : DB) (novel_id : Nat) (start_from_chapter : Option Nat) : Option DB :=
  let st :=
    match start_from_chapter with
    | some k => { novelist with next_chapter_num := k }
    | none => novelist
  let snapshot := (db.chapters.filter (fun c => c.novel_id == novel_id)).map (fun c => c.id)
  match db.findNovel novel_id with
  | none => some db
  | some _ =>
      runner_loop gen novel_id snapshot fuel st
        (db.updateNovel novel_id (fun n => { n with status := NovelStatus.GENERATING }))

/-- Insertion into a list kept sorted by chapter number (ascending, stable). -/
def insertByChapterNumber (c : ChapterRec) : List ChapterRec → List ChapterRec
  | [] => [c]
  | d :: rest =>
      if c.chapter_number < d.chapter_number then c :: d :: rest
      else d :: insertByChapterNumber c rest

/-- The `order_by(Chapter.chapter_number)` clause of the chapter queries. -/
def sortByChapterNumber (l : List ChapterRec) : List ChapterRec :=
  l.foldr insertByChapterNumber []

/-- novels.py lines 434-439: the body of the `for i in range(current_index,
len(chapters))` loop of `NovelContent.get`, expressed on the suffix of the
chapter list that the loop still has to visit, with `i` the running index:
each COMPLETED chapter contributes `(i + 1, content)` and the first chapter
that is not COMPLETED breaks the loop. -/
def contents_loop_from (i : Nat) : List ChapterRec → List (Nat × String)
  | [] => []
  | c :: rest =>
      if c.status == NovelStatus.COMPLETED then
        (i + 1, c.content) :: contents_loop_from (i + 1) rest
      else []

/-- novels.py lines 434-439: the whole collection loop, starting at
`current_index` (the loop reads `chapters[i]` for `i` from `current_index` up
to the break, which is exactly a traversal of `chapters.drop i`). -/
def contents_loop (chapters : List ChapterRec) (i : Nat) : List (Nat × String) :=
  contents_loop_from i (chapters.drop i)

/-- The HTTP aborts of `NovelContent.get` (401, 404, 403). -/
inductive HttpAbort
  | unauthorized
  | notFound
  | forbidden
deriving DecidableEq, Repr

/-- The marshalled response of `NovelContent.get`. -/
structure ContentsResponse where
  novel_status : NovelStatus
  current_chapter : Nat
  total_chapter_number : Nat
  new_chapters : List (Nat × String)
deriving DecidableEq, Repr

/-- novels.py lines 379-446: `NovelContent.get`, the progress-poll endpoint.
The headers are the user id (missing or empty is falsy, 401) and the last-seen
index (missing, 401; its integer parse is assumed to succeed).  The handler
issues only queries and never commits, so it returns the database unchanged in
every branch.  Python `current_chapter or len(chapters)` yields the length
also when `current_chapter` is 0, hence the explicit zero test. -/
def novel_contents_get (db : DB) (novel_id : Nat) (user_id : String)
    (current_index : Option Nat) : DB × Except HttpAbort ContentsResponse :=
  -- the novel row is fetched up front (line 408); the handler is pure, so the
  -- fetch is inlined at its use site in the match below.
  if user_id == "" then (db, Except.error HttpAbort.unauthorized)
  else
    match current_index with
    | none => (db, Except.error HttpAbort.unauthorized)
    | some idx =>
      match db.findNovel novel_id with
      | none => (db, Except.error HttpAbort.notFound)
      | some novel =>
        if novel.user_id ≠ user_id then (db, Except.error HttpAbort.forbidden)
        else
          let chapters := sortByChapterNumber
            (db.chapters.filter (fun c => c.novel_id == novel_id))
          let current_chapter := (chapters.find? (fun c =>
            c.status == NovelStatus.GENERATING || c.status == NovelStatus.FAILED)).map
              (fun c => c.chapter_number)
          let results := contents_loop chapters idx
          (db, Except.ok
            { novel_status := novel.status,
              current_chapter :=
                match current_chapter with
                | none => chapters.length
                | some n => if n == 0 then chapters.length else n,
              total_chapter_number := chapters.length,
              new_chapters := results })

/-- The spec-side characterization of the progress-poll list (spec section 6):
the chapters that are COMPLETED and contiguous from the requested index, in
increasing order, stopping at the first non-COMPLETED chapter.  Stated with
`takeWhile` over the suffix from the index and compared with the code above. -/
def new_chapters_spec (chapters : List ChapterRec) (current_index : Nat) :
    List (Nat × String) :=
  (List.enumFrom (current_index + 1)
      ((chapters.drop current_index).takeWhile (fun c => c.status == NovelStatus.COMPLETED))).map
    (fun p => (p.1, p.2.content))

/-- novels.py lines 510-520 (`NovelInit.post`): the loop creating the chapter
placeholder rows after a successful `prepare_novel`, one per planned chapter,
numbered `i + 1`, PENDING, with the plot of outline `i`.  Primary keys are
uuid4 strings in the source; they are modelled as consecutive ids from
`first_id`.  The Python access `chapter_plots[i].get("plot")` is in bounds for
every successful plan, so the `getD` default is never taken. -/
def create_chapter_placeholders (st : Novelist) (novel_id : Nat) (first_id : Nat) :
    List ChapterRec :=
  (List.range st.chapter_count).map (fun i =>
    { id := first_id + i, chapter_number := i + 1, content := "NO CONTENT",
      novel_id := novel_id, status := NovelStatus.PENDING,
      plot := st.chapter_plots.getD i "", updated_at := 0 })

/-! Theorems. -/

/-- Helper for C2: the fuel-driven log never overestimates: 2 to its value is
at most n, whenever the fuel covers n. -/
theorem floorLog2Aux_pow_le :
    ∀ (fuel n : Nat), 1 ≤ n → n ≤ fuel → 2 ^ floorLog2Aux fuel n ≤ n := by
  intro fuel
  induction fuel with
  | zero => intro n h1 h2; omega
  | succ f ih =>
      intro n h1 h2
      rw [floorLog2Aux]
      by_cases h : n < 2
      · rw [if_pos h]
        simpa using h1
      · rw [if_neg h]
        have hrec := ih (n / 2) (by omega) (by omega)
        rw [pow_succ]
        omega

/-- Helper for C2: a number below 2 to the (k + 1) has floorLog2 at most k. -/
theorem floorLog2_le (n k : Nat) (h1 : 1 ≤ n) (h : n < 2 ^ (k + 1)) :
    floorLog2 n ≤ k := by
  by_contra hc
  push_neg at hc
  have h2 : 2 ^ floorLog2 n ≤ n := floorLog2Aux_pow_le n n h1 (Nat.le_refl n)
  have h3 : 2 ^ (k + 1) ≤ 2 ^ floorLog2 n := Nat.pow_le_pow_right (by omega) (by omega)
  omega

/-- Helper for C2: scaling by a power of at least 1024, rounding to nearest
(ties to even) and unscaling recovers exact floor division by 2000: the
fractional part, a multiple of 1/2000, is never within half such an ulp of
the next integer. -/
theorem roundHalfEven_scaled_div (x p : Nat) (hp : 1024 ≤ p) :
    roundHalfEven (x * p) 2000 / p = x / 2000 := by
  have hx := Nat.div_add_mod x 2000
  set q := x / 2000 with hq
  set r := x % 2000 with hrdef
  have hr2000 : r < 2000 := Nat.mod_lt _ (by omega)
  have hxp : x * p = 2000 * (q * p) + r * p := by
    calc x * p = (2000 * q + r) * p := by rw [hx]
    _ = 2000 * (q * p) + r * p := by ring
  have ht := Nat.div_add_mod (r * p) 2000
  set A := r * p / 2000 with hAdef
  set B := r * p % 2000 with hBdef
  have hB2000 : B < 2000 := Nat.mod_lt _ (by omega)
  have htle : r * p ≤ 1999 * p := Nat.mul_le_mul_right p (by omega)
  have hQ : x * p / 2000 = q * p + A := by
    rw [hxp, Nat.mul_add_div (by omega)]
  have hR : x * p % 2000 = B := by
    rw [hxp, Nat.mul_add_mod]
  have hAp : A < p := by omega
  have hdiv : ∀ n : Nat, q * p ≤ n → n < q * p + p → n / p = q := by
    intro n h1 h2
    refine Nat.div_eq_of_lt_le h1 ?_
    rw [Nat.succ_mul]
    omega
  unfold roundHalfEven
  rw [hQ, hR]
  by_cases hcase : A + 1 < p
  · split
    · exact hdiv _ (by omega) (by omega)
    · split
      · exact hdiv _ (by omega) (by omega)
      · split
        · exact hdiv _ (by omega) (by omega)
        · exact hdiv _ (by omega) (by omega)
  · have hA1 : A + 1 = p := by omega
    have hBsmall : 2 * B < 2000 := by omega
    rw [if_pos hBsmall]
    exact hdiv _ (by omega) (by omega)

/-- Claim C2 counterexample: at target_length 17592186044417999 the code
computes 8796093022209, one more than the floor 8796093022208: the float
quotient 2 to the 43 plus 1999/2000 rounds up to the next double, which is
the integer above, so the claimed for-every-target_length floor law fails. -/
theorem calc_chapter_count_claim_counterexample :
    4000 ≤ 17592186044417999 ∧
    calc_chapter_count 17592186044417999 ≠ 17592186044417999 / 2000 ∧
    calc_chapter_count 17592186044417999 = 8796093022209 ∧
    17592186044417999 / 2000 = 8796093022208 := by decide

/-- Claim C2 as amended: below 4000 the computation returns exactly 1; at or
above 4000 it returns floor(target_length / 2000) for every target_length
below 2000 * 2 ^ 43 (the range in which the binary64 quotient can never round
across an integer; beyond it the truncated float may exceed the floor, as the
counterexample shows); in particular 4000 yields 2, 5999 yields 2, and 6000
yields 3. -/
theorem calc_chapter_count_spec :
    (∀ tl : Nat, tl < 4000 → calc_chapter_count tl = 1) ∧
    (∀ tl : Nat, 4000 ≤ tl → tl < 2000 * 2 ^ 43 → calc_chapter_count tl = tl / 2000) ∧
    calc_chapter_count 4000 = 2 ∧ calc_chapter_count 5999 = 2 ∧
    calc_chapter_count 6000 = 3 := by
  refine ⟨fun tl h => ?_, fun tl h4 hlt => ?_, by decide, by decide, by decide⟩
  · simp [calc_chapter_count, h]
  · have hbound : (2000 * 2 ^ 43 : Nat) = 17592186044416000 := by norm_num
    have hn1 : 1 ≤ tl / 2000 := by omega
    have hq2 : tl / 2000 < 2 ^ 43 := by
      have h43 : (2 : Nat) ^ 43 = 8796093022208 := by norm_num
      omega
    have he : floorLog2 (tl / 2000) ≤ 42 := floorLog2_le (tl / 2000) 42 hn1 hq2
    have hp : 1024 ≤ 2 ^ (52 - floorLog2 (tl / 2000)) := by
      calc (1024 : Nat) = 2 ^ 10 := by norm_num
      _ ≤ 2 ^ (52 - floorLog2 (tl / 2000)) := Nat.pow_le_pow_right (by omega) (by omega)
    simp only [calc_chapter_count, int_div_2000_float]
    rw [if_neg (by omega), if_pos (by omega : floorLog2 (tl / 2000) ≤ 52)]
    exact roundHalfEven_scaled_div tl _ hp

/-- Witness for C2 (amended) at the concrete lengths 3000 and 8000. -/
theorem calc_chapter_count_spec_witness :
    calc_chapter_count 3000 = 1 ∧ calc_chapter_count 8000 = 4 :=
  ⟨calc_chapter_count_spec.1 3000 (by decide),
   (calc_chapter_count_spec.2.1 8000 (by decide) (by norm_num)).trans (by decide)⟩

/-- An orchestrator state whose cursor is two past the last chapter number. -/
def novelistC7 : Novelist :=
  { Novelist.init with chapter_count := 1, next_chapter_num := 3 }

/-- Claim C7 counterexample: with chapter_count 1 and cursor 3 the cursor is
strictly greater than the chapter count, yet is_completed returns false, so
is_completed is not "true for every cursor value strictly greater than the
chapter count". -/
theorem is_completed_claim_counterexample :
    novelistC7.chapter_count < novelistC7.next_chapter_num ∧
    novelistC7.is_completed = false := by decide

/-- Claim C7 as amended: is_completed returns true iff the cursor equals
chapter_count + 1 (the code tests equality, not strict order); in particular
it is false whenever the cursor is at most the chapter count. -/
theorem is_completed_iff (st : Novelist) :
    (st.is_completed = true ↔ st.next_chapter_num = st.chapter_count + 1) ∧
    (st.next_chapter_num ≤ st.chapter_count → st.is_completed = false) := by
  constructor
  · simp [Novelist.is_completed]
  · intro h
    simp only [Novelist.is_completed, beq_eq_false_iff_ne, ne_eq]
    omega

/-- Witness for C7 (amended) on a state with cursor 1 of 2 chapters. -/
theorem is_completed_iff_witness :
    Novelist.is_completed { Novelist.init with chapter_count := 2 } = false :=
  (is_completed_iff { Novelist.init with chapter_count := 2 }).2 (by decide)

/-- A generation oracle that always succeeds with a fixed text. -/
def genOkC3 : ChapterGen := fun _ _ _ _ => Except.ok "generated text"

/-- A three-chapter orchestrator state with the cursor still at 1. -/
def novelistC3 : Novelist :=
  { Novelist.init with chapter_count := 3, chapter_plots := ["p1", "p2", "p3"] }

/-- Claim C3 counterexample: retry_failed_chapter with chapter_number 2 and
previous_content none on a 3-chapter work does not raise a validation error;
it generates and returns the chapter text. -/
theorem retry_chapter_none_counterexample :
    retry_failed_chapter genOkC3 novelistC3 2 none =
      Except.ok ("generated text", novelistC3) := rfl

/-- Claim C3 as amended: retry_failed_chapter raises a ValueError exactly when
the chapter number is outside the range from 1 to chapter_count; for an
in-range chapter number with previous_content none it proceeds to generate,
inferring the previous content from internal state (or using none). -/
theorem retry_chapter_valueError_iff (gen : ChapterGen) (st : Novelist)
    (chapter_number : Nat) (previous_content : Option String) :
    (∃ msg, retry_failed_chapter gen st chapter_number previous_content =
        Except.error (NovelistError.valueError msg)) ↔
      (chapter_number < 1 ∨ chapter_number > st.chapter_count) := by
  by_cases h : chapter_number < 1 ∨ chapter_number > st.chapter_count
  · unfold retry_failed_chapter
    rw [if_pos h]
    exact ⟨fun _ => h, fun _ => ⟨"Invalid chapter number", rfl⟩⟩
  · unfold retry_failed_chapter
    rw [if_neg h]
    simp only [h, iff_false, not_exists]
    intro msg hmsg
    split at hmsg <;> simp_all

/-- Helper: the generation branch of retry_failed_chapter yields the input
state whenever it yields a success at all. -/
theorem retry_gen_branch_ok (r : Except GErr String) (st : Novelist)
    (content : String) (st2 : Novelist)
    (h : (match r with
          | Except.error e => Except.error (NovelistError.apiError e)
          | Except.ok c => Except.ok (c, st)) = Except.ok (content, st2)) :
    st2 = st := by
  cases r <;> simp_all

/-- Claim C8: for every valid chapter number and previous-content argument, a
successful retry_failed_chapter call leaves the cursor, the stored previous
chapter content and the running text-length total unchanged. -/
theorem retry_chapter_frame (gen : ChapterGen) (st : Novelist) (chapter_number : Nat)
    (previous_content : Option String)
    (h1 : 1 ≤ chapter_number) (h2 : chapter_number ≤ st.chapter_count) :
    ∀ content st2,
      retry_failed_chapter gen st chapter_number previous_content =
        Except.ok (content, st2) →
      st2.next_chapter_num = st.next_chapter_num ∧
      st2.previous_chapter_content = st.previous_chapter_content ∧
      st2.total_text_length = st.total_text_length := by
  intro content st2 hok
  unfold retry_failed_chapter at hok
  rw [if_neg (by omega)] at hok
  have hst := retry_gen_branch_ok _ _ _ _ hok
  rw [hst]
  exact ⟨rfl, rfl, rfl⟩

/-- Witness for C8: a concrete successful retry of chapter 2 returns the
input state, so each of the three components is preserved. -/
theorem retry_chapter_frame_witness :
    novelistC3.next_chapter_num = novelistC3.next_chapter_num ∧
    novelistC3.previous_chapter_content = novelistC3.previous_chapter_content ∧
    novelistC3.total_text_length = novelistC3.total_text_length :=
  retry_chapter_frame genOkC3 novelistC3 2 (some "prev") (by decide) (by decide)
    "generated text" novelistC3 rfl

/-- Claim C10: for every existing novel or chapter row, mark_novel_as_failed
and mark_chapter_as_failed return False and leave the committed state
unchanged, because evaluating the updated_at timestamp references the unbound
name timezone, raising a NameError that is caught and rolled back. -/
theorem mark_failed_noop (db : DB) (novel_id chapter_id : Nat)
    (msg1 msg2 : String) (et1 et2 : Option String) (fcid : Option Nat)
    (hn : (db.findNovel novel_id).isSome) (hc : (db.findChapter chapter_id).isSome) :
    mark_novel_as_failed db novel_id msg1 et1 fcid = (db, false) ∧
    mark_chapter_as_failed db chapter_id msg2 et2 = (db, false) := by
  have ht : datetime_now_timezone_utc = Except.error (PyExn.nameError "timezone") := rfl
  constructor
  · unfold mark_novel_as_failed
    cases hfn : db.findNovel novel_id with
    | none => simp [hfn] at hn
    | some n => rw [ht]
  · unfold mark_chapter_as_failed
    cases hfc : db.findChapter chapter_id with
    | none => simp [hfc] at hc
    | some c => rw [ht]

/-- A one-novel, one-chapter database used to witness C10. -/
def dbC10 : DB :=
  { novels := [{ id := 1, user_id := "u", status := NovelStatus.GENERATING, updated_at := 0 }],
    chapters := [{ id := 5, chapter_number := 1, content := "text", novel_id := 1,
                   status := NovelStatus.GENERATING, plot := "p", updated_at := 0 }] }

/-- Witness for C10 on the concrete database dbC10. -/
theorem mark_failed_noop_witness :
    mark_novel_as_failed dbC10 1 "boom" (some "SafetyFilterError") (some 5) = (dbC10, false) ∧
    mark_chapter_as_failed dbC10 5 "boom" (some "SafetyFilterError") = (dbC10, false) :=
  mark_failed_noop dbC10 1 5 "boom" "boom" (some "SafetyFilterError")
    (some "SafetyFilterError") (some 5) (by decide) (by decide)

/-- C1 scenario: a three-chapter novel after the init endpoint generated
chapter 1 synchronously (COMPLETED) and left chapters 2 and 3 PENDING. -/
def dbC1 : DB :=
  { novels := [{ id := 1, user_id := "u", status := NovelStatus.GENERATING, updated_at := 0 }],
    chapters :=
      [{ id := 11, chapter_number := 1, content := "chapter one", novel_id := 1,
         status := NovelStatus.COMPLETED, plot := "p1", updated_at := 0 },
       { id := 12, chapter_number := 2, content := "NO CONTENT", novel_id := 1,
         status := NovelStatus.PENDING, plot := "p2", updated_at := 0 },
       { id := 13, chapter_number := 3, content := "NO CONTENT", novel_id := 1,
         status := NovelStatus.PENDING, plot := "p3", updated_at := 0 }] }

/-- The orchestrator state handed to the background task after chapter 1. -/
def novelistC1 : Novelist :=
  { Novelist.init with
    chapter_count := 3
    chapter_plots := ["p1", "p2", "p3"]
    next_chapter_num := 2
    previous_chapter_content := "chapter one" }

/-- Oracle for C1: generation of chapter 2 exhausts its retries and fails with
a terminal error; any other chapter would succeed. -/
def genFailAt2 : ChapterGen := fun _ _ _ n =>
  if n == 2 then Except.error GErr.SafetyFilterError else Except.ok "more text"

/-- Claim C1, evaluated at the failing input: when chapter 2 of 3 fails, the
runner does halt (chapter 3 stays PENDING, never attempted), but the persisted
chapter 2 and the novel remain GENERATING instead of the documented FAILED,
because both mark functions fail on the unbound timezone name and roll back. -/
theorem bg_runner_failure_statuses :
    (novelist_bg_task_runner genFailAt2 10 novelistC1 dbC1 1 none).map (fun dbf =>
      ((dbf.findNovel 1).map (fun n => n.status),
       (dbf.findChapter 11).map (fun c => c.status),
       (dbf.findChapter 12).map (fun c => c.status),
       (dbf.findChapter 13).map (fun c => c.status))) =
      some (some NovelStatus.GENERATING, some NovelStatus.COMPLETED,
            some NovelStatus.GENERATING, some NovelStatus.PENDING) := by
  rfl

/-- Helper: with a retriable error on every attempt before i and a success at
attempt i within the retry budget, the retry loop returns the success. -/
theorem retry_from_ok_after {α : Type} (retriable : GErr → Bool) (op : RetryOp α)
    (e : GErr) (he : retriable e = true) (v : α) :
    ∀ (i attempt remaining : Nat), i ≤ remaining →
      (∀ j, j < i → op (attempt + j) = Except.error e) →
      op (attempt + i) = Except.ok v →
      retry_from retriable op attempt remaining = Except.ok v := by
  intro i
  induction i with
  | zero =>
      intro attempt remaining _ _ hok
      rw [retry_from]
      rw [Nat.add_zero] at hok
      rw [hok]
  | succ i ih =>
      intro attempt remaining hle hfail hok
      have h0 : op attempt = Except.error e := by
        have h := hfail 0 (Nat.succ_pos i)
        rwa [Nat.add_zero] at h
      rw [retry_from, h0]
      simp only [he, if_true]
      match remaining, hle with
      | r + 1, hle =>
        apply ih (attempt + 1) r (by omega)
        · intro j hj
          have h := hfail (j + 1) (by omega)
          rwa [show attempt + (j + 1) = attempt + 1 + j by omega] at h
        · rwa [show attempt + 1 + i = attempt + (i + 1) by omega]

/-- Helper: with a retriable error on every attempt in the budget, the retry
loop re-raises that error after the final attempt. -/
theorem retry_from_all_fail {α : Type} (retriable : GErr → Bool) (op : RetryOp α)
    (e : GErr) (he : retriable e = true) :
    ∀ (remaining attempt : Nat),
      (∀ j, j ≤ remaining → op (attempt + j) = Except.error e) →
      retry_from retriable op attempt remaining = Except.error e := by
  intro remaining
  induction remaining with
  | zero =>
      intro attempt hf
      have h0 : op attempt = Except.error e := by
        have h := hf 0 (Nat.le_refl 0)
        rwa [Nat.add_zero] at h
      rw [retry_from, h0]
      simp [he]
  | succ r ih =>
      intro attempt hf
      have h0 : op attempt = Except.error e := by
        have h := hf 0 (Nat.zero_le _)
        rwa [Nat.add_zero] at h
      rw [retry_from, h0]
      simp only [he, if_true]
      apply ih (attempt + 1)
      intro j hj
      have h := hf (j + 1) (by omega)
      rwa [show attempt + (j + 1) = attempt + 1 + j by omega] at h

/-- Helper: a non-retriable error propagates from the attempt raising it. -/
theorem retry_from_nonretriable {α : Type} (retriable : GErr → Bool) (op : RetryOp α)
    (e : GErr) (hne : retriable e = false) (attempt remaining : Nat)
    (h0 : op attempt = Except.error e) :
    retry_from retriable op attempt remaining = Except.error e := by
  rw [retry_from, h0]
  simp [hne]

/-- Claim C4: an InvalidJSONError raised by the wrapped operation is retried
up to the configured maximum (4 retries, 5 attempts) under the JSON-generation
preset, while under the general-purpose preset, whose retriable set excludes
it, the first occurrence propagates to the caller at once: the result is that
error for every operation whose first attempt raises it, independent of any
later attempt. -/
theorem invalid_json_retry_classification :
    (∀ op : RetryOp String, op 0 = Except.error GErr.InvalidJSONError →
        retry_for_novel_generation op = Except.error GErr.InvalidJSONError) ∧
    (∀ (op : RetryOp String) (i : Nat) (v : String), i ≤ 4 →
        (∀ j, j < i → op j = Except.error GErr.InvalidJSONError) →
        op i = Except.ok v →
        retry_for_json_generation op = Except.ok v) ∧
    (∀ op : RetryOp String,
        (∀ j, j ≤ 4 → op j = Except.error GErr.InvalidJSONError) →
        retry_for_json_generation op = Except.error GErr.InvalidJSONError) := by
  refine ⟨fun op h0 => ?_, fun op i v hle hfail hok => ?_, fun op hf => ?_⟩
  · exact retry_from_nonretriable RETRIABLE_ERRORS op GErr.InvalidJSONError rfl 0 3 h0
  · refine retry_from_ok_after extended_retriable op GErr.InvalidJSONError rfl v i 0 4 hle
      (fun j hj => ?_) ?_
    · rw [Nat.zero_add]
      exact hfail j hj
    · rw [Nat.zero_add]
      exact hok
  · refine retry_from_all_fail extended_retriable op GErr.InvalidJSONError rfl 4 0
      (fun j hj => ?_)
    rw [Nat.zero_add]
    exact hf j hj

/-- Operation for the C4 witness: JSON parsing fails on the first two attempts
and succeeds on the third. -/
def opFailTwice : RetryOp String := fun j =>
  if j < 2 then Except.error GErr.InvalidJSONError else Except.ok "plan"

/-- Operation for the C4 witness: every attempt raises InvalidJSONError. -/
def opAlwaysInvalid : RetryOp String := fun _ => Except.error GErr.InvalidJSONError

/-- Witness for C4: the general preset propagates the first InvalidJSONError,
and the JSON preset recovers after two failing attempts. -/
theorem invalid_json_retry_classification_witness :
    retry_for_novel_generation opAlwaysInvalid = Except.error GErr.InvalidJSONError ∧
    retry_for_json_generation opFailTwice = Except.ok "plan" :=
  ⟨invalid_json_retry_classification.1 opAlwaysInvalid rfl,
   invalid_json_retry_classification.2.1 opFailTwice 2 "plan" (by omega)
     (fun j hj => by simp [opFailTwice, hj]) rfl⟩

/-- Helper for C5: the collection loop over a suffix equals the takeWhile
characterization of that suffix. -/
theorem contents_loop_from_eq (l : List ChapterRec) :
    ∀ i, contents_loop_from i l =
      (List.enumFrom (i + 1)
          (l.takeWhile (fun c => c.status == NovelStatus.COMPLETED))).map
        (fun p => (p.1, p.2.content)) := by
  induction l with
  | nil => intro i; rfl
  | cons c rest ih =>
      intro i
      by_cases hc : c.status == NovelStatus.COMPLETED
      · rw [contents_loop_from, if_pos hc, List.takeWhile_cons, if_pos hc]
        rw [List.enumFrom_cons, List.map_cons, ih (i + 1)]
      · rw [contents_loop_from, if_neg hc, List.takeWhile_cons, if_neg hc]
        rfl

/-- Claim C5: whenever the progress-poll endpoint answers successfully, the
new_chapters it returns are exactly the chapters that are COMPLETED and
contiguous from the requested index among the ordered chapters of the novel,
in increasing order, stopping at the first non-COMPLETED chapter (the
takeWhile of the suffix from the index). -/
theorem poll_new_chapters_spec (db : DB) (novel_id : Nat) (user_id : String)
    (idx : Nat) (r : ContentsResponse)
    (hok : (novel_contents_get db novel_id user_id (some idx)).2 = Except.ok r) :
    r.new_chapters = new_chapters_spec
      (sortByChapterNumber (db.chapters.filter (fun c => c.novel_id == novel_id))) idx := by
  by_cases hu : user_id == ""
  · simp [novel_contents_get, hu] at hok
  · cases hfn : db.findNovel novel_id with
    | none => simp [novel_contents_get, hu, hfn] at hok
    | some novel =>
        by_cases hp : novel.user_id ≠ user_id
        · simp [novel_contents_get, hu, hfn, hp] at hok
        · simp [novel_contents_get, hu, hfn, hp] at hok
          rw [← hok]
          exact contents_loop_from_eq _ idx

/-- Database for the C5 and C6 witnesses: one novel owned by user u, chapters
1 and 2 COMPLETED and chapter 3 PENDING. -/
def dbC5 : DB :=
  { novels := [{ id := 1, user_id := "u", status := NovelStatus.GENERATING, updated_at := 0 }],
    chapters :=
      [{ id := 21, chapter_number := 1, content := "one", novel_id := 1,
         status := NovelStatus.COMPLETED, plot := "p1", updated_at := 0 },
       { id := 22, chapter_number := 2, content := "two", novel_id := 1,
         status := NovelStatus.COMPLETED, plot := "p2", updated_at := 0 },
       { id := 23, chapter_number := 3, content := "NO CONTENT", novel_id := 1,
         status := NovelStatus.PENDING, plot := "p3", updated_at := 0 }] }

/-- The response dbC5 produces for last-seen index 1. -/
def respC5 : ContentsResponse :=
  { novel_status := NovelStatus.GENERATING, current_chapter := 3,
    total_chapter_number := 3, new_chapters := [(2, "two")] }

/-- Witness for C5: polling dbC5 from index 1 returns exactly chapter 2. -/
theorem poll_new_chapters_spec_witness :
    respC5.new_chapters = new_chapters_spec
      (sortByChapterNumber (dbC5.chapters.filter (fun c => c.novel_id == 1))) 1 :=
  poll_new_chapters_spec dbC5 1 "u" 1 respC5 rfl

/-- Claim C6: polling is idempotent: the handler leaves the database
unchanged, and a second poll with the same novel, user and last-seen index on
that unchanged database returns the same response (hence the same
new_chapters list). -/
theorem poll_idempotent (db : DB) (novel_id : Nat) (user_id : String)
    (current_index : Option Nat) :
    (novel_contents_get db novel_id user_id current_index).1 = db ∧
    (novel_contents_get (novel_contents_get db novel_id user_id current_index).1
        novel_id user_id current_index).2 =
      (novel_contents_get db novel_id user_id current_index).2 := by
  have h1 : (novel_contents_get db novel_id user_id current_index).1 = db := by
    unfold novel_contents_get
    repeat' split
    all_goals rfl
  exact ⟨h1, by rw [h1]⟩

/-- Helper for C9: a successful prepare_novel sets chapter_count to the
computed chapter count. -/
theorem prepare_novel_chapter_count (generate_init : InitGen) (st st1 : Novelist)
    (hok : prepare_novel generate_init st = Except.ok st1) :
    st1.chapter_count = calc_chapter_count st.target_text_length := by
  simp only [prepare_novel] at hok
  split at hok
  · simp at hok
  · split at hok
    · simp at hok
    · simp only [Except.ok.injEq] at hok
      rw [← hok]

/-- Claim C9: for every successful plan generation, the persisted chapter
placeholders number exactly the computed chapter count, and their
chapter_number values are exactly the integers from 1 to that count, with no
gaps (every such integer occurs) and no duplicates. -/
theorem init_placeholders_spec (generate_init : InitGen) (st st1 : Novelist)
    (novel_id first_id : Nat)
    (hok : prepare_novel generate_init st = Except.ok st1) :
    (create_chapter_placeholders st1 novel_id first_id).length =
      calc_chapter_count st.target_text_length ∧
    ((create_chapter_placeholders st1 novel_id first_id).map
        (fun c => c.chapter_number)).Nodup ∧
    (∀ k, k ∈ (create_chapter_placeholders st1 novel_id first_id).map
        (fun c => c.chapter_number) ↔
      1 ≤ k ∧ k ≤ calc_chapter_count st.target_text_length) := by
  have hcc := prepare_novel_chapter_count generate_init st st1 hok
  have hmap : (create_chapter_placeholders st1 novel_id first_id).map
      (fun c => c.chapter_number) = (List.range st1.chapter_count).map (fun i => i + 1) := by
    rw [create_chapter_placeholders, List.map_map]
    rfl
  refine ⟨?_, ?_, ?_⟩
  · rw [create_chapter_placeholders, List.length_map, List.length_range, hcc]
  · rw [hmap]
    exact (List.nodup_range _).map (add_left_injective 1)
  · intro k
    rw [hmap, ← hcc]
    simp only [List.mem_map, List.mem_range]
    constructor
    · rintro ⟨i, hi, rfl⟩
      omega
    · rintro ⟨h1, h2⟩
      exact ⟨k - 1, by omega, by omega⟩

/-- Plan oracle for the C9 witness: returns a well-formed plan with exactly
the requested number of chapter outlines. -/
def initGenC9 : InitGen := fun _ cc =>
  Except.ok { plot := "overall", chapter_plots := List.replicate cc "cp",
              title := "t", summary := "s" }

/-- Input state for the C9 witness: target length 5000 (2 chapters). -/
def novelistC9 : Novelist :=
  { Novelist.init with target_text_length := 5000 }

/-- The state produced by prepare_novel on novelistC9 with initGenC9. -/
def novelistC9ok : Novelist :=
  { novelistC9 with chapter_count := 2, plot := "overall", chapter_plots := ["cp", "cp"] }

/-- Witness for C9: two placeholders, numbered exactly 1 and 2. -/
theorem init_placeholders_spec_witness :
    (create_chapter_placeholders novelistC9ok 7 100).length =
      calc_chapter_count novelistC9.target_text_length ∧
    ((create_chapter_placeholders novelistC9ok 7 100).map
        (fun c => c.chapter_number)).Nodup ∧
    (∀ k, k ∈ (create_chapter_placeholders novelistC9ok 7 100).map
        (fun c => c.chapter_number) ↔
      1 ≤ k ∧ k ≤ calc_chapter_count novelistC9.target_text_length) :=
  init_placeholders_spec initGenC9 novelistC9 novelistC9ok 7 100 rfl

end NovelBackend
